import Mathlib

/-!
Verification of the BFB form-builder core: the form/field data model, the
field factory, the mutation engine (add / remove / duplicate / move),
the validator, the serialization round trip, and the publish-boundary
conversion.  Every definition is a shallow embedding of the corresponding
Python source in `app/models` and `app/services`.
-/

namespace BFB

/-! ## A JSON-like tree

The persisted representation and all pass-through attributes
(`button : dict`, `ConditionalLogic.rules : List[dict]`) are plain
structured trees.  Objects are ordered key/value lists, matching Python
dict ordering. -/

mutual
inductive Json where
  | null : Json
  | bool (b : Bool) : Json
  | int (n : Int) : Json
  | float (q : ℚ) : Json
  | str (s : String) : Json
  | arr (xs : JsonList) : Json
  | obj (kvs : JsonKVs) : Json
deriving DecidableEq

inductive JsonList where
  | nil : JsonList
  | cons (hd : Json) (tl : JsonList) : JsonList
deriving DecidableEq

inductive JsonKVs where
  | nil : JsonKVs
  | cons (k : String) (v : Json) (tl : JsonKVs) : JsonKVs
deriving DecidableEq
end

def JsonList.ofList : List Json → JsonList
  | [] => JsonList.nil
  | j :: rest => JsonList.cons j (JsonList.ofList rest)

/-- Key lookup in an ordered object, as Python dict / pydantic key access. -/
def jlookup (k : String) : JsonKVs → Option Json
  | JsonKVs.nil => none
  | JsonKVs.cons k' v tl => if k = k' then some v else jlookup k tl

/-- Python's `str.strip()`: remove leading and trailing whitespace. -/
def pyStrip (s : String) : String :=
  String.mk (((s.data.dropWhile Char.isWhitespace).reverse.dropWhile Char.isWhitespace).reverse)

/-! ## Data model (`app/models/form_model.py`) -/

/-- Supported field types in the MVP (`FieldType`, a closed set).
`sectionBreak` embeds the source's `SECTION` member (whose string value is
"section"); the word itself is reserved in Lean. -/
inductive FieldType where
  | text | textarea | number | email | phone | website
  | select | multiselect | radio | checkbox
  | name | address | date | time
  | fileupload | hidden | html | sectionBreak | page
deriving DecidableEq

/-- The string value of each `FieldType` member (it is a `str` enum). -/
def FieldType.value : FieldType → String
  | .text => "text"
  | .textarea => "textarea"
  | .number => "number"
  | .email => "email"
  | .phone => "phone"
  | .website => "website"
  | .select => "select"
  | .multiselect => "multiselect"
  | .radio => "radio"
  | .checkbox => "checkbox"
  | .name => "name"
  | .address => "address"
  | .date => "date"
  | .time => "time"
  | .fileupload => "fileupload"
  | .hidden => "hidden"
  | .html => "html"
  | .sectionBreak => "section"
  | .page => "page"

/-- Parse a `FieldType` from its string value (pydantic enum validation). -/
def FieldType.ofValue : String → Option FieldType
  | "text" => some .text
  | "textarea" => some .textarea
  | "number" => some .number
  | "email" => some .email
  | "phone" => some .phone
  | "website" => some .website
  | "select" => some .select
  | "multiselect" => some .multiselect
  | "radio" => some .radio
  | "checkbox" => some .checkbox
  | "name" => some .name
  | "address" => some .address
  | "date" => some .date
  | "time" => some .time
  | "fileupload" => some .fileupload
  | "hidden" => some .hidden
  | "html" => some .html
  | "section" => some .sectionBreak
  | "page" => some .page
  | _ => none

structure Choice where
  text : String
  value : Option String := none
  isSelected : Bool := false
deriving DecidableEq

structure InputItem where
  id : String
  label : Option String := none
  name : Option String := none
  placeholder : Option String := none
deriving DecidableEq

/-- The payload of `ValidationRule.value : Union[str, int, float]`.
Binary64 float values are embedded as rationals; the serializer passes
them through untouched. -/
inductive RuleValue where
  | s (v : String)
  | i (n : Int)
  | f (q : ℚ)
deriving DecidableEq

structure ValidationRule where
  type : String
  value : Option RuleValue := none
  message : Option String := none
deriving DecidableEq

structure ConditionalLogic where
  actionType : String
  logicType : String
  rules : List JsonKVs := []
deriving DecidableEq

structure FieldModel where
  id : Option Int := none
  type : FieldType
  label : String
  adminLabel : Option String := some ""
  description : Option String := some ""
  isRequired : Bool := false
  placeholder : Option String := some ""
  defaultValue : Option String := some ""
  inputs : Option (List InputItem) := none
  choices : Option (List Choice) := none
  cssClass : Option String := some ""
  size : Option String := some "medium"
  maxLength : Option Int := none
  visibility : String := "visible"
  allowsPrepopulate : Bool := false
  inputName : Option String := none
  content : Option String := some ""
  displayOnly : Bool := false
  conditionalLogic : Option ConditionalLogic := none
  validation : Option (List ValidationRule) := none
  maxFileSize : Option Int := none
  allowedExtensions : Option String := none
  multipleFiles : Bool := false
deriving DecidableEq

structure NotificationSettings where
  id : Option String := none
  name : String := "Admin Notification"
  event : String := "form_submission"
  -- the source names this attribute `to`, a reserved word in Lean
  to_addr : String := "{admin_email}"
  subject : String := "New submission from {form_title}"
  message : String := "{all_fields}"
  from_name : String := "{site_title}"
  from_email : String := "{admin_email}"
  replyTo : Option String := none
  bcc : Option String := none
  isActive : Bool := true
deriving DecidableEq

structure ConfirmationSettings where
  id : Option String := none
  name : String := "Default Confirmation"
  type : String := "message"
  message : Option String := some "Thanks for contacting us! We will get in touch with you shortly."
  url : Option String := none
  pageId : Option Int := none
  queryString : Option String := none
  isActive : Bool := true
  isDefault : Bool := true
deriving DecidableEq

def defaultButton : JsonKVs :=
  JsonKVs.cons "type" (Json.str "text") (JsonKVs.cons "text" (Json.str "Submit") JsonKVs.nil)

structure FormModel where
  id : Option Int := none
  title : String
  description : Option String := some ""
  version : String := "1.0"
  fields : List FieldModel := []
  button : JsonKVs := defaultButton
  labelPlacement : String := "top_label"
  descriptionPlacement : String := "below"
  requiredIndicator : String := "text"
  cssClass : Option String := some ""
  enableHoneypot : Bool := true
  enableAnimation : Bool := false
  save : Bool := false
  limitEntries : Bool := false
  limitEntriesCount : Option Int := none
  limitEntriesMessage : Option String := some ""
  scheduleForm : Bool := false
  scheduleStart : Option String := none
  scheduleEnd : Option String := none
  scheduleMessage : Option String := some ""
  notifications : List NotificationSettings := []
  confirmations : List ConfirmationSettings := []
deriving DecidableEq

/-- `FormModel.model_post_init`: installs a default notification and
confirmation when none were supplied.  Runs at construction and at
validation. -/
def model_post_init (form : FormModel) : FormModel :=
  { form with
    notifications := if form.notifications.isEmpty then [{}] else form.notifications,
    confirmations := if form.confirmations.isEmpty then [{}] else form.confirmations }

/-! ## Field factory (`app/models/field_factory.py`) -/

/-- `FieldFactory._get_default_label`. -/
def get_default_label : FieldType → String
  | .text => "Untitled"
  | .textarea => "Message"
  | .number => "Number"
  | .email => "Email"
  | .phone => "Phone"
  | .website => "Website"
  | .select => "Dropdown"
  | .multiselect => "Multi Select"
  | .radio => "Radio Buttons"
  | .checkbox => "Checkboxes"
  | .name => "Name"
  | .address => "Address"
  | .date => "Date"
  | .time => "Time"
  | .fileupload => "File Upload"
  | .hidden => "Hidden Field"
  | .html => "HTML Block"
  | .sectionBreak => "Section Break"
  | .page => "Page Break"

def defaultChoices : List Choice :=
  [{ text := "First Choice", value := some "first" },
   { text := "Second Choice", value := some "second" },
   { text := "Third Choice", value := some "third" }]

/-- `FieldFactory.create_field`: a new field with type-specific defaults. -/
def create_field (field_type : FieldType) (field_id : Option Int) : FieldModel :=
  let base : FieldModel := { id := field_id, type := field_type, label := get_default_label field_type }
  match field_type with
  | .text => { base with placeholder := some "Enter text here" }
  | .textarea => { base with placeholder := some "Enter your message here" }
  | .email => { base with placeholder := some "Enter your email address" }
  | .phone => { base with placeholder := some "Enter your phone number" }
  | .website => { base with placeholder := some "https://example.com" }
  | .select => { base with choices := some defaultChoices, placeholder := some "Select an option" }
  | .multiselect => { base with choices := some defaultChoices, placeholder := some "Select an option" }
  | .radio => { base with choices := some defaultChoices }
  | .checkbox => { base with choices := some defaultChoices }
  | .name =>
    let nameInputs : List InputItem :=
      [{ id := "3.1", label := some "First", name := some "first", placeholder := some "First" },
       { id := "3.2", label := some "Last", name := some "last", placeholder := some "Last" }]
    { base with inputs := some nameInputs }
  | .address =>
    let addrInputs : List InputItem :=
      [{ id := "1.1", label := some "Street Address", name := some "street", placeholder := some "Street Address" },
       { id := "1.2", label := some "Address Line 2", name := some "street2", placeholder := some "Address Line 2" },
       { id := "1.3", label := some "City", name := some "city", placeholder := some "City" },
       { id := "1.4", label := some "State / Province", name := some "state", placeholder := some "State / Province" },
       { id := "1.5", label := some "ZIP / Postal Code", name := some "zip", placeholder := some "ZIP / Postal Code" },
       { id := "1.6", label := some "Country", name := some "country", placeholder := some "Country" }]
    { base with inputs := some addrInputs }
  | .fileupload =>
    { base with allowedExtensions := some "jpg,jpeg,png,gif,pdf,doc,docx,txt", maxFileSize := some 20 }
  | .hidden => { base with visibility := "hidden", label := "Hidden Field" }
  | .html => { base with content := some "<p>Add your HTML content here</p>", displayOnly := true }
  | .sectionBreak => { base with displayOnly := true, description := some "This is a section break" }
  | .page =>
    { base with displayOnly := true, label := "Page Break", description := some "This will create a new page" }
  | .number => base
  | .date => base
  | .time => base

/-! ## Mutation engine (`app/services/form_service.py`)

The Python service mutates the form in place and raises `FormServiceError`
on failure; we embed each operation as a function returning the final
state of the form object together with an optional error, so that the
state observable by the caller after a failure is captured exactly. -/

/-- The error taxonomy of the mutation operations. -/
inductive OpError where
  | notFound
  | invalidState
deriving DecidableEq

/-- `FormService.create_new_form`. -/
def create_new_form (title : String) : FormModel :=
  let t := if pyStrip title = "" then "Untitled Form" else title
  model_post_init { title := pyStrip t, description := some "", fields := [] }

/-- `max_id` computation of `add_field_to_form` / `duplicate_field_in_form`:
`max(field.id or 0 for field in form.fields)` with 0 when there are no
fields. -/
def maxFieldId (fields : List FieldModel) : Int :=
  match fields.map (fun f => f.id.getD 0) with
  | [] => 0
  | x :: xs => xs.foldl max x

/-- Python `list.insert` for an index ≤ the length (greater indices clamp
to the end, as `insert` does). -/
def listInsertAt (l : List α) (n : Nat) (a : α) : List α :=
  match n, l with
  | 0, l => a :: l
  | _ + 1, [] => [a]
  | n + 1, x :: xs => x :: listInsertAt xs n a

/-- `FormService.add_field_to_form`. -/
def add_field_to_form (form : FormModel) (field_type : FieldType) (position : Option Nat) : FormModel :=
  let max_id := maxFieldId form.fields
  let new_field := create_field field_type (some (max_id + 1))
  match position with
  | none => { form with fields := form.fields ++ [new_field] }
  | some p =>
    if form.fields.length ≤ p then { form with fields := form.fields ++ [new_field] }
    else { form with fields := listInsertAt form.fields p new_field }

/-- `FormService.remove_field_from_form`.  The list is filtered first and
the not-found condition is detected afterwards by comparing lengths,
exactly as the source does. -/
def remove_field_from_form (form : FormModel) (field_id : Int) : FormModel × Option OpError :=
  let newFields := form.fields.filter (fun f => f.id != some field_id)
  if newFields.length = form.fields.length then
    ({ form with fields := newFields }, some OpError.notFound)
  else
    ({ form with fields := newFields }, none)

/-- The `for i, field in enumerate(...)` search for the first field whose
id equals the target: returns the field and its index. -/
def findFieldWithIdx : List FieldModel → Int → Nat → Option (FieldModel × Nat)
  | [], _, _ => none
  | f :: rest, fid, i =>
    if f.id = some fid then some (f, i) else findFieldWithIdx rest fid (i + 1)

/-- `FormService.duplicate_field_in_form`: the clone keeps every attribute
of the source (`model_dump` / `model_validate` round trip) except for the
fresh id and the " (Copy)" label suffix, and is inserted right after the
source. -/
def duplicate_field_in_form (form : FormModel) (field_id : Int) : FormModel × Option OpError :=
  match findFieldWithIdx form.fields field_id 0 with
  | none => (form, some OpError.notFound)
  | some (src, i) =>
    let max_id := maxFieldId form.fields
    let dup := { src with id := some (max_id + 1), label := src.label ++ " (Copy)" }
    ({ form with fields := listInsertAt form.fields (i + 1) dup }, none)

/-- Swap the elements at positions `i - 1` and `i` (used with `1 ≤ i <
length`; other indices leave the list unchanged up to the clamp). -/
def swapWithPrev (l : List α) (i : Nat) : List α :=
  l.take (i - 1) ++ (match l.drop (i - 1) with
    | a :: b :: rest => b :: a :: rest
    | other => other)

/-- `FormService.move_field_up`. -/
def move_field_up (form : FormModel) (field_id : Int) : FormModel × Option OpError :=
  match findFieldWithIdx form.fields field_id 0 with
  | none => (form, some OpError.notFound)
  | some (_, i) =>
    if i = 0 then (form, some OpError.invalidState)
    else ({ form with fields := swapWithPrev form.fields i }, none)

/-- `FormService.move_field_down`. -/
def move_field_down (form : FormModel) (field_id : Int) : FormModel × Option OpError :=
  match findFieldWithIdx form.fields field_id 0 with
  | none => (form, some OpError.notFound)
  | some (_, i) =>
    if i < form.fields.length - 1 then
      ({ form with fields := swapWithPrev form.fields (i + 1) }, none)
    else (form, some OpError.invalidState)

/-! ## Validator (`FormService.validate_form`) -/

/-- The positional field prefix of every field-level error message. -/
def fieldPfx (i : Nat) : String := "Field " ++ toString (i + 1)

/-- The per-choice loop of the validator: blank choice text is reported
with 1-based field and choice indices. -/
def choiceErrorsFrom (pfx : String) : Nat → List Choice → List String
  | _, [] => []
  | j, c :: rest =>
    (if pyStrip c.text = "" then [pfx ++ ", Choice " ++ toString (j + 1) ++ ": Choice text is required"] else [])
      ++ choiceErrorsFrom pfx (j + 1) rest

/-- The set of choice-kind field types. -/
def choiceKinds : List FieldType := [.select, .multiselect, .radio, .checkbox]

/-- The errors contributed by one field, given the set of ids already
seen.  Mirrors the per-field body of `validate_form`. -/
def fieldErrors (f : FieldModel) (i : Nat) (seen : List Int) : List String :=
  let pfx := fieldPfx i
  (match f.id with
    | some fid => if fid ∈ seen then [pfx ++ ": Duplicate field ID " ++ toString fid] else []
    | none => [])
  ++ (if pyStrip f.label = "" then [pfx ++ ": Field label is required"] else [])
  ++ (if 255 < f.label.length then [pfx ++ ": Field label must be 255 characters or less"] else [])
  ++ (if f.type ∈ choiceKinds then
        match f.choices with
        | none => [pfx ++ ": Choice fields must have at least one choice"]
        | some cs =>
          if cs.isEmpty then [pfx ++ ": Choice fields must have at least one choice"]
          else choiceErrorsFrom pfx 0 cs
      else [])
  ++ (if f.type = .fileupload then
        match f.maxFileSize with
        | some n => if 100 < n then [pfx ++ ": Maximum file size cannot exceed 100MB"] else []
        | none => []
      else [])
  ++ (if f.type = .html then
        match f.content with
        | none => [pfx ++ ": HTML fields must have content"]
        | some c => if pyStrip c = "" then [pfx ++ ": HTML fields must have content"] else []
      else [])

/-- The field loop of `validate_form`, carrying the index and the running
set of seen ids (an id is added only at its first occurrence). -/
def validate_fields : List FieldModel → Nat → List Int → List String
  | [], _, _ => []
  | f :: rest, i, seen =>
    let seen' := match f.id with
      | some fid => if fid ∈ seen then seen else fid :: seen
      | none => seen
    fieldErrors f i seen ++ validate_fields rest (i + 1) seen'

/-- `FormService.validate_form`: all errors collected in order. -/
def validate_form (form : FormModel) : List String :=
  (if pyStrip form.title = "" then ["Form title is required"] else [])
  ++ (if 255 < (pyStrip form.title).length then ["Form title must be 255 characters or less"] else [])
  ++ validate_fields form.fields 0 []

/-! ## Publish-boundary conversion (`app/services/wp_client.py`) -/

def JsonKVs.ofList : List (String × Json) → JsonKVs
  | [] => JsonKVs.nil
  | (k, v) :: rest => JsonKVs.cons k v (JsonKVs.ofList rest)

/-- Python's `x or default` on an optional string: `None` and `""` are
both falsy and fall back to the default. -/
def pyOr (o : Option String) (d : String) : String :=
  match o with
  | none => d
  | some s => if s = "" then d else s

def jStrOpt : Option String → Json
  | none => Json.null
  | some s => Json.str s

def jIntOpt : Option Int → Json
  | none => Json.null
  | some n => Json.int n

/-- The `type_mapping` dict of `_convert_field_to_gravity_forms`. -/
def type_mapping : List (String × String) :=
  [("text", "text"), ("textarea", "textarea"), ("number", "number"),
   ("email", "email"), ("phone", "phone"), ("website", "website"),
   ("select", "select"), ("multiselect", "multiselect"), ("radio", "radio"),
   ("checkbox", "checkbox"), ("name", "name"), ("address", "address"),
   ("date", "date"), ("time", "time"), ("fileupload", "fileupload"),
   ("hidden", "hidden"), ("html", "html"), ("section", "section"),
   ("page", "page")]

def assocFind (k : String) : List (String × String) → Option String
  | [] => none
  | (k', v) :: rest => if k = k' then some v else assocFind k rest

def convert_choice_to_gf (c : Choice) : Json :=
  Json.obj (JsonKVs.ofList
    [("text", Json.str c.text),
     ("value", Json.str (pyOr c.value c.text)),
     ("isSelected", Json.bool c.isSelected)])

def convert_input_to_gf (inp : InputItem) : Json :=
  Json.obj (JsonKVs.ofList
    [("id", Json.str inp.id),
     ("label", Json.str (pyOr inp.label "")),
     ("name", Json.str (pyOr inp.name "")),
     ("placeholder", Json.str (pyOr inp.placeholder ""))])

/-- `WPClient._convert_field_to_gravity_forms`: `None` means the field
kind is unsupported and is dropped by the caller. -/
def convert_field_to_gravity_forms (field : FieldModel) : Option JsonKVs :=
  match assocFind field.type.value type_mapping with
  | none => none
  | some gf_type =>
    let base : List (String × Json) :=
      [("id", jIntOpt field.id),
       ("type", Json.str gf_type),
       ("label", Json.str field.label),
       ("adminLabel", Json.str (pyOr field.adminLabel "")),
       ("description", Json.str (pyOr field.description "")),
       ("isRequired", Json.bool field.isRequired),
       ("size", Json.str (pyOr field.size "medium")),
       ("cssClass", Json.str (pyOr field.cssClass "")),
       ("placeholder", Json.str (pyOr field.placeholder "")),
       ("defaultValue", Json.str (pyOr field.defaultValue ""))]
    let withChoices := base ++
      (match field.choices with
        | some (c :: cs) => [("choices", Json.arr (JsonList.ofList ((c :: cs).map convert_choice_to_gf)))]
        | _ => [])
    let withInputs := withChoices ++
      (match field.inputs with
        | some (inp :: inps) => [("inputs", Json.arr (JsonList.ofList ((inp :: inps).map convert_input_to_gf)))]
        | _ => [])
    let withUpload := withInputs ++
      (if field.type = .fileupload then
        (match field.maxFileSize with
          | some n => if n = 0 then [] else [("maxFileSize", Json.int n)]
          | none => [])
        ++ (match field.allowedExtensions with
          | some s => if s = "" then [] else [("allowedExtensions", Json.str s)]
          | none => [])
        ++ [("multipleFiles", Json.bool field.multipleFiles)]
      else [])
    let withHtml := withUpload ++
      (if field.type = .html then [("content", Json.str (pyOr field.content ""))] else [])
    let withMaxLen := withHtml ++
      (match field.maxLength with
        | some n => if n = 0 then [] else [("maxLength", Json.int n)]
        | none => [])
    let withLogic := withMaxLen ++
      (match field.conditionalLogic with
        | some cl =>
          [("conditionalLogic", Json.obj (JsonKVs.ofList
            [("actionType", Json.str cl.actionType),
             ("logicType", Json.str cl.logicType),
             ("rules", Json.arr (JsonList.ofList (cl.rules.map Json.obj)))]))]
        | none => [])
    some (JsonKVs.ofList withLogic)

/-- The field loop of `_convert_to_gravity_forms_format`: only fields
whose conversion succeeded are appended. -/
def convert_fields_to_gf : List FieldModel → List JsonKVs
  | [] => []
  | f :: rest =>
    match convert_field_to_gravity_forms f with
    | some gf => gf :: convert_fields_to_gf rest
    | none => convert_fields_to_gf rest

def convert_confirmation (conf : ConfirmationSettings) : Json :=
  Json.obj (JsonKVs.ofList
    [("id", jStrOpt conf.id),
     ("name", Json.str conf.name),
     ("type", Json.str conf.type),
     ("message", jStrOpt conf.message),
     ("url", jStrOpt conf.url),
     ("pageId", jIntOpt conf.pageId),
     ("queryString", jStrOpt conf.queryString),
     ("isActive", Json.bool conf.isActive),
     ("isDefault", Json.bool conf.isDefault)])

def convert_notification (notif : NotificationSettings) : Json :=
  Json.obj (JsonKVs.ofList
    [("id", jStrOpt notif.id),
     ("name", Json.str notif.name),
     ("event", Json.str notif.event),
     ("to", Json.str notif.to_addr),
     ("subject", Json.str notif.subject),
     ("message", Json.str notif.message),
     ("from", Json.str notif.from_email),
     ("fromName", Json.str notif.from_name),
     ("replyTo", jStrOpt notif.replyTo),
     ("bcc", jStrOpt notif.bcc),
     ("isActive", Json.bool notif.isActive)])

/-- `WPClient._convert_to_gravity_forms_format`. -/
def convert_to_gravity_forms_format (form : FormModel) : JsonKVs :=
  JsonKVs.ofList
    [("title", Json.str form.title),
     ("description", Json.str (pyOr form.description "")),
     ("labelPlacement", Json.str form.labelPlacement),
     ("descriptionPlacement", Json.str form.descriptionPlacement),
     ("button", Json.obj form.button),
     ("fields", Json.arr (JsonList.ofList ((convert_fields_to_gf form.fields).map Json.obj))),
     ("version", Json.str form.version),
     ("cssClass", Json.str (pyOr form.cssClass "")),
     ("enableHoneypot", Json.bool form.enableHoneypot),
     ("enableAnimation", Json.bool form.enableAnimation),
     ("save", Json.bool form.save),
     ("limitEntries", Json.bool form.limitEntries),
     ("limitEntriesCount", jIntOpt form.limitEntriesCount),
     ("limitEntriesMessage", jStrOpt form.limitEntriesMessage),
     ("scheduleForm", Json.bool form.scheduleForm),
     ("scheduleStart", jStrOpt form.scheduleStart),
     ("scheduleEnd", jStrOpt form.scheduleEnd),
     ("scheduleMessage", jStrOpt form.scheduleMessage),
     ("confirmations", Json.arr (JsonList.ofList (form.confirmations.map convert_confirmation))),
     ("notifications", Json.arr (JsonList.ofList (form.notifications.map convert_notification)))]

/-! ## Serialization (`model_dump` / `model_validate`)

`FormService.save_form` writes `json.dump(form.model_dump())` and
`FormService.load_form` reads `FormModel.model_validate(json.load(...))`;
the JSON text layer is a faithful transport of the tree, so the
round trip is embedded at the tree level. -/

def decodeStr : Json → Option String
  | Json.str s => some s
  | _ => none

def decodeOptStr : Json → Option (Option String)
  | Json.null => some none
  | Json.str s => some (some s)
  | _ => none

def decodeBool : Json → Option Bool
  | Json.bool b => some b
  | _ => none

def decodeOptInt : Json → Option (Option Int)
  | Json.null => some none
  | Json.int n => some (some n)
  | _ => none

def decodeFieldTypeJson : Json → Option FieldType
  | Json.str s => FieldType.ofValue s
  | _ => none

def decodeOptRuleValue : Json → Option (Option RuleValue)
  | Json.null => some none
  | Json.str s => some (some (RuleValue.s s))
  | Json.int n => some (some (RuleValue.i n))
  | Json.float q => some (some (RuleValue.f q))
  | _ => none

def decodeDict : Json → Option JsonKVs
  | Json.obj kvs => some kvs
  | _ => none

def decodeListWith (dec : Json → Option α) : JsonList → Option (List α)
  | JsonList.nil => some []
  | JsonList.cons j tl =>
    match dec j, decodeListWith dec tl with
    | some x, some xs => some (x :: xs)
    | _, _ => none

def decodeArrWith (dec : Json → Option α) : Json → Option (List α)
  | Json.arr xs => decodeListWith dec xs
  | _ => none

def decodeOptArrWith (dec : Json → Option α) : Json → Option (Option (List α))
  | Json.null => some none
  | Json.arr xs => (decodeListWith dec xs).map some
  | _ => none

/-- Encode an optional list (absent stays `null`, never `[]`). -/
def jOptArr (enc : α → Json) : Option (List α) → Json
  | none => Json.null
  | some xs => Json.arr (JsonList.ofList (xs.map enc))

def jRuleValueOpt : Option RuleValue → Json
  | none => Json.null
  | some (RuleValue.s v) => Json.str v
  | some (RuleValue.i n) => Json.int n
  | some (RuleValue.f q) => Json.float q

/-- Read a required key. -/
def getReq (kvs : JsonKVs) (k : String) (dec : Json → Option α) : Option α :=
  (jlookup k kvs).bind dec

/-- Read a key that has a pydantic default when absent. -/
def getOr (kvs : JsonKVs) (k : String) (d : α) (dec : Json → Option α) : Option α :=
  match jlookup k kvs with
  | none => some d
  | some j => dec j

def Choice.model_dump (c : Choice) : JsonKVs :=
  JsonKVs.ofList
    [("text", Json.str c.text),
     ("value", jStrOpt c.value),
     ("isSelected", Json.bool c.isSelected)]

def Choice.model_validate : Json → Option Choice
  | Json.obj kvs =>
    (getReq kvs "text" decodeStr).bind fun text =>
    (getOr kvs "value" none decodeOptStr).bind fun value =>
    (getOr kvs "isSelected" false decodeBool).bind fun isSel =>
    some { text := text, value := value, isSelected := isSel }
  | _ => none

def InputItem.model_dump (inp : InputItem) : JsonKVs :=
  JsonKVs.ofList
    [("id", Json.str inp.id),
     ("label", jStrOpt inp.label),
     ("name", jStrOpt inp.name),
     ("placeholder", jStrOpt inp.placeholder)]

def InputItem.model_validate : Json → Option InputItem
  | Json.obj kvs =>
    (getReq kvs "id" decodeStr).bind fun iid =>
    (getOr kvs "label" none decodeOptStr).bind fun label =>
    (getOr kvs "name" none decodeOptStr).bind fun nm =>
    (getOr kvs "placeholder" none decodeOptStr).bind fun ph =>
    some { id := iid, label := label, name := nm, placeholder := ph }
  | _ => none

def ValidationRule.model_dump (r : ValidationRule) : JsonKVs :=
  JsonKVs.ofList
    [("type", Json.str r.type),
     ("value", jRuleValueOpt r.value),
     ("message", jStrOpt r.message)]

def ValidationRule.model_validate : Json → Option ValidationRule
  | Json.obj kvs =>
    (getReq kvs "type" decodeStr).bind fun ty =>
    (getOr kvs "value" none decodeOptRuleValue).bind fun v =>
    (getOr kvs "message" none decodeOptStr).bind fun msg =>
    some { type := ty, value := v, message := msg }
  | _ => none

def ConditionalLogic.model_dump (cl : ConditionalLogic) : JsonKVs :=
  JsonKVs.ofList
    [("actionType", Json.str cl.actionType),
     ("logicType", Json.str cl.logicType),
     ("rules", Json.arr (JsonList.ofList (cl.rules.map Json.obj)))]

def ConditionalLogic.model_validate : Json → Option ConditionalLogic
  | Json.obj kvs =>
    (getReq kvs "actionType" decodeStr).bind fun at_ =>
    (getReq kvs "logicType" decodeStr).bind fun lt_ =>
    (getOr kvs "rules" [] (decodeArrWith decodeDict)).bind fun rules =>
    some { actionType := at_, logicType := lt_, rules := rules }
  | _ => none

def decodeOptCondLogic : Json → Option (Option ConditionalLogic)
  | Json.null => some none
  | j => (ConditionalLogic.model_validate j).map some

def FieldModel.model_dump (f : FieldModel) : JsonKVs :=
  JsonKVs.ofList
    [("id", jIntOpt f.id),
     ("type", Json.str f.type.value),
     ("label", Json.str f.label),
     ("adminLabel", jStrOpt f.adminLabel),
     ("description", jStrOpt f.description),
     ("isRequired", Json.bool f.isRequired),
     ("placeholder", jStrOpt f.placeholder),
     ("defaultValue", jStrOpt f.defaultValue),
     ("inputs", jOptArr (fun i => Json.obj i.model_dump) f.inputs),
     ("choices", jOptArr (fun c => Json.obj c.model_dump) f.choices),
     ("cssClass", jStrOpt f.cssClass),
     ("size", jStrOpt f.size),
     ("maxLength", jIntOpt f.maxLength),
     ("visibility", Json.str f.visibility),
     ("allowsPrepopulate", Json.bool f.allowsPrepopulate),
     ("inputName", jStrOpt f.inputName),
     ("content", jStrOpt f.content),
     ("displayOnly", Json.bool f.displayOnly),
     ("conditionalLogic", match f.conditionalLogic with
        | none => Json.null
        | some cl => Json.obj cl.model_dump),
     ("validation", jOptArr (fun r => Json.obj r.model_dump) f.validation),
     ("maxFileSize", jIntOpt f.maxFileSize),
     ("allowedExtensions", jStrOpt f.allowedExtensions),
     ("multipleFiles", Json.bool f.multipleFiles)]

def FieldModel.decodeA (kvs : JsonKVs) : Option FieldModel :=
  (getOr kvs "id" none decodeOptInt).bind fun fid =>
  (getReq kvs "type" decodeFieldTypeJson).bind fun ty =>
  (getReq kvs "label" decodeStr).bind fun label =>
  (getOr kvs "adminLabel" (some "") decodeOptStr).bind fun adminLabel =>
  (getOr kvs "description" (some "") decodeOptStr).bind fun descr =>
  (getOr kvs "isRequired" false decodeBool).bind fun isReq =>
  (getOr kvs "placeholder" (some "") decodeOptStr).bind fun ph =>
  (getOr kvs "defaultValue" (some "") decodeOptStr).bind fun dv =>
  some { id := fid, type := ty, label := label, adminLabel := adminLabel,
         description := descr, isRequired := isReq, placeholder := ph,
         defaultValue := dv }

def FieldModel.decodeB (kvs : JsonKVs) (r : FieldModel) : Option FieldModel :=
  (getOr kvs "inputs" none (decodeOptArrWith InputItem.model_validate)).bind fun inputs =>
  (getOr kvs "choices" none (decodeOptArrWith Choice.model_validate)).bind fun choices =>
  (getOr kvs "cssClass" (some "") decodeOptStr).bind fun css =>
  (getOr kvs "size" (some "medium") decodeOptStr).bind fun size =>
  (getOr kvs "maxLength" none decodeOptInt).bind fun maxLen =>
  (getOr kvs "visibility" "visible" decodeStr).bind fun vis =>
  (getOr kvs "allowsPrepopulate" false decodeBool).bind fun ap =>
  (getOr kvs "inputName" none decodeOptStr).bind fun inName =>
  some { r with inputs := inputs, choices := choices, cssClass := css,
                size := size, maxLength := maxLen, visibility := vis,
                allowsPrepopulate := ap, inputName := inName }

def FieldModel.decodeC (kvs : JsonKVs) (r : FieldModel) : Option FieldModel :=
  (getOr kvs "content" (some "") decodeOptStr).bind fun content =>
  (getOr kvs "displayOnly" false decodeBool).bind fun dOnly =>
  (getOr kvs "conditionalLogic" none decodeOptCondLogic).bind fun cl =>
  (getOr kvs "validation" none (decodeOptArrWith ValidationRule.model_validate)).bind fun vr =>
  (getOr kvs "maxFileSize" none decodeOptInt).bind fun mfs =>
  (getOr kvs "allowedExtensions" none decodeOptStr).bind fun ae =>
  (getOr kvs "multipleFiles" false decodeBool).bind fun mf =>
  some { r with content := content, displayOnly := dOnly,
                conditionalLogic := cl, validation := vr, maxFileSize := mfs,
                allowedExtensions := ae, multipleFiles := mf }

/-- Pydantic validation of a `FieldModel` from the tree: every key is
looked up independently (staged here only to keep the compiled code
small); missing keys take the declared defaults, malformed values fail. -/
def FieldModel.model_validate : Json → Option FieldModel
  | Json.obj kvs =>
    (FieldModel.decodeA kvs).bind fun r =>
    (FieldModel.decodeB kvs r).bind fun r' =>
    FieldModel.decodeC kvs r'
  | _ => none

def NotificationSettings.model_dump (n : NotificationSettings) : JsonKVs :=
  JsonKVs.ofList
    [("id", jStrOpt n.id),
     ("name", Json.str n.name),
     ("event", Json.str n.event),
     ("to", Json.str n.to_addr),
     ("subject", Json.str n.subject),
     ("message", Json.str n.message),
     ("from_name", Json.str n.from_name),
     ("from_email", Json.str n.from_email),
     ("replyTo", jStrOpt n.replyTo),
     ("bcc", jStrOpt n.bcc),
     ("isActive", Json.bool n.isActive)]

def NotificationSettings.decodeA (kvs : JsonKVs) : Option NotificationSettings :=
  (getOr kvs "id" none decodeOptStr).bind fun nid =>
  (getOr kvs "name" "Admin Notification" decodeStr).bind fun nm =>
  (getOr kvs "event" "form_submission" decodeStr).bind fun ev =>
  (getOr kvs "to" "{admin_email}" decodeStr).bind fun toA =>
  (getOr kvs "subject" "New submission from {form_title}" decodeStr).bind fun subj =>
  (getOr kvs "message" "{all_fields}" decodeStr).bind fun msg =>
  some { id := nid, name := nm, event := ev, to_addr := toA, subject := subj,
         message := msg }

def NotificationSettings.decodeB (kvs : JsonKVs) (r : NotificationSettings) : Option NotificationSettings :=
  (getOr kvs "from_name" "{site_title}" decodeStr).bind fun fn =>
  (getOr kvs "from_email" "{admin_email}" decodeStr).bind fun fe =>
  (getOr kvs "replyTo" none decodeOptStr).bind fun rt =>
  (getOr kvs "bcc" none decodeOptStr).bind fun bcc =>
  (getOr kvs "isActive" true decodeBool).bind fun act =>
  some { r with from_name := fn, from_email := fe, replyTo := rt,
                bcc := bcc, isActive := act }

def NotificationSettings.model_validate : Json → Option NotificationSettings
  | Json.obj kvs => (NotificationSettings.decodeA kvs).bind (NotificationSettings.decodeB kvs)
  | _ => none

def ConfirmationSettings.model_dump (c : ConfirmationSettings) : JsonKVs :=
  JsonKVs.ofList
    [("id", jStrOpt c.id),
     ("name", Json.str c.name),
     ("type", Json.str c.type),
     ("message", jStrOpt c.message),
     ("url", jStrOpt c.url),
     ("pageId", jIntOpt c.pageId),
     ("queryString", jStrOpt c.queryString),
     ("isActive", Json.bool c.isActive),
     ("isDefault", Json.bool c.isDefault)]

def ConfirmationSettings.decodeA (kvs : JsonKVs) : Option ConfirmationSettings :=
  (getOr kvs "id" none decodeOptStr).bind fun cid =>
  (getOr kvs "name" "Default Confirmation" decodeStr).bind fun nm =>
  (getOr kvs "type" "message" decodeStr).bind fun ty =>
  (getOr kvs "message" (some "Thanks for contacting us! We will get in touch with you shortly.") decodeOptStr).bind fun msg =>
  (getOr kvs "url" none decodeOptStr).bind fun url =>
  some { id := cid, name := nm, type := ty, message := msg, url := url }

def ConfirmationSettings.decodeB (kvs : JsonKVs) (r : ConfirmationSettings) : Option ConfirmationSettings :=
  (getOr kvs "pageId" none decodeOptInt).bind fun pid =>
  (getOr kvs "queryString" none decodeOptStr).bind fun qs =>
  (getOr kvs "isActive" true decodeBool).bind fun act =>
  (getOr kvs "isDefault" true decodeBool).bind fun dflt =>
  some { r with pageId := pid, queryString := qs, isActive := act, isDefault := dflt }

def ConfirmationSettings.model_validate : Json → Option ConfirmationSettings
  | Json.obj kvs => (ConfirmationSettings.decodeA kvs).bind (ConfirmationSettings.decodeB kvs)
  | _ => none

def FormModel.model_dump (form : FormModel) : JsonKVs :=
  JsonKVs.ofList
    [("id", jIntOpt form.id),
     ("title", Json.str form.title),
     ("description", jStrOpt form.description),
     ("version", Json.str form.version),
     ("fields", Json.arr (JsonList.ofList (form.fields.map (fun f => Json.obj f.model_dump)))),
     ("button", Json.obj form.button),
     ("labelPlacement", Json.str form.labelPlacement),
     ("descriptionPlacement", Json.str form.descriptionPlacement),
     ("requiredIndicator", Json.str form.requiredIndicator),
     ("cssClass", jStrOpt form.cssClass),
     ("enableHoneypot", Json.bool form.enableHoneypot),
     ("enableAnimation", Json.bool form.enableAnimation),
     ("save", Json.bool form.save),
     ("limitEntries", Json.bool form.limitEntries),
     ("limitEntriesCount", jIntOpt form.limitEntriesCount),
     ("limitEntriesMessage", jStrOpt form.limitEntriesMessage),
     ("scheduleForm", Json.bool form.scheduleForm),
     ("scheduleStart", jStrOpt form.scheduleStart),
     ("scheduleEnd", jStrOpt form.scheduleEnd),
     ("scheduleMessage", jStrOpt form.scheduleMessage),
     ("notifications", Json.arr (JsonList.ofList (form.notifications.map (fun n => Json.obj n.model_dump)))),
     ("confirmations", Json.arr (JsonList.ofList (form.confirmations.map (fun c => Json.obj c.model_dump))))]

def FormModel.decodeA (kvs : JsonKVs) : Option FormModel :=
  (getOr kvs "id" none decodeOptInt).bind fun fid =>
  (getReq kvs "title" decodeStr).bind fun title =>
  (getOr kvs "description" (some "") decodeOptStr).bind fun descr =>
  (getOr kvs "version" "1.0" decodeStr).bind fun ver =>
  (getOr kvs "fields" [] (decodeArrWith FieldModel.model_validate)).bind fun fields =>
  (getOr kvs "button" defaultButton decodeDict).bind fun button =>
  (getOr kvs "labelPlacement" "top_label" decodeStr).bind fun lp =>
  (getOr kvs "descriptionPlacement" "below" decodeStr).bind fun dp =>
  some { id := fid, title := title, description := descr, version := ver,
         fields := fields, button := button, labelPlacement := lp,
         descriptionPlacement := dp }

def FormModel.decodeB (kvs : JsonKVs) (r : FormModel) : Option FormModel :=
  (getOr kvs "requiredIndicator" "text" decodeStr).bind fun ri =>
  (getOr kvs "cssClass" (some "") decodeOptStr).bind fun css =>
  (getOr kvs "enableHoneypot" true decodeBool).bind fun hp =>
  (getOr kvs "enableAnimation" false decodeBool).bind fun anim =>
  (getOr kvs "save" false decodeBool).bind fun sv =>
  (getOr kvs "limitEntries" false decodeBool).bind fun le =>
  (getOr kvs "limitEntriesCount" none decodeOptInt).bind fun lec =>
  (getOr kvs "limitEntriesMessage" (some "") decodeOptStr).bind fun lem =>
  some { r with requiredIndicator := ri, cssClass := css, enableHoneypot := hp,
                enableAnimation := anim, save := sv, limitEntries := le,
                limitEntriesCount := lec, limitEntriesMessage := lem }

def FormModel.decodeC (kvs : JsonKVs) (r : FormModel) : Option FormModel :=
  (getOr kvs "scheduleForm" false decodeBool).bind fun sf =>
  (getOr kvs "scheduleStart" none decodeOptStr).bind fun ss =>
  (getOr kvs "scheduleEnd" none decodeOptStr).bind fun se =>
  (getOr kvs "scheduleMessage" (some "") decodeOptStr).bind fun sm =>
  (getOr kvs "notifications" [] (decodeArrWith NotificationSettings.model_validate)).bind fun notifs =>
  (getOr kvs "confirmations" [] (decodeArrWith ConfirmationSettings.model_validate)).bind fun confs =>
  some { r with scheduleForm := sf, scheduleStart := ss, scheduleEnd := se,
                scheduleMessage := sm, notifications := notifs,
                confirmations := confs }

/-- Pydantic validation of a `FormModel` from the tree, followed by
`model_post_init` (staged only to keep the compiled code small). -/
def FormModel.model_validate : Json → Option FormModel
  | Json.obj kvs =>
    (FormModel.decodeA kvs).bind fun r =>
    (FormModel.decodeB kvs r).bind fun r' =>
    (FormModel.decodeC kvs r').bind fun r'' =>
    some (model_post_init r'')
  | _ => none

/-! ## Concrete fixtures -/

/-- A minimal field as the tests construct them:
`FieldModel(id=..., type=..., label=...)`. -/
def mkField (fid : Int) (ft : FieldType) (lbl : String) : FieldModel :=
  { id := some fid, type := ft, label := lbl }

/-- A form with three fields with ids 1, 2, 3. -/
def form123 : FormModel :=
  { title := "Survey",
    fields := [mkField 1 .text "A", mkField 2 .email "B", mkField 3 .phone "C"] }

/-- A form with no fields. -/
def emptyFieldsForm : FormModel := { title := "Survey" }

/-- A form with a blank title and no fields. -/
def blankTitleForm : FormModel := { title := "" }

/-- A form with one SELECT field whose choices list is empty. -/
def selectNoChoicesForm : FormModel :=
  { title := "Survey",
    fields := [{ id := some 1, type := .select, label := "Dropdown", choices := some [] }] }

/-! ## Supporting lemmas -/

theorem foldl_max_init_le (xs : List Int) (a : Int) : a ≤ xs.foldl max a := by
  induction xs generalizing a with
  | nil => exact le_refl a
  | cons x rest ih => exact le_trans (le_max_left a x) (ih (max a x))

theorem foldl_max_le_of_mem {xs : List Int} {y : Int} (a : Int) (h : y ∈ xs) :
    y ≤ xs.foldl max a := by
  induction xs generalizing a with
  | nil => cases h
  | cons x rest ih =>
    rcases List.mem_cons.mp h with rfl | hm
    · exact le_trans (le_max_right a y) (foldl_max_init_le rest (max a y))
    · exact ih (max a x) hm

theorem le_maxFieldId {fields : List FieldModel} {f : FieldModel} (h : f ∈ fields) :
    f.id.getD 0 ≤ maxFieldId fields := by
  have hmem : f.id.getD 0 ∈ fields.map (fun g => g.id.getD 0) :=
    List.mem_map.mpr ⟨f, h, rfl⟩
  unfold maxFieldId
  rcases hx : fields.map (fun g => g.id.getD 0) with _ | ⟨x, xs⟩
  · rw [hx] at hmem; cases hmem
  · rw [hx] at hmem
    rw [hx]
    rcases List.mem_cons.mp hmem with heq | hm
    · rw [heq]; exact foldl_max_init_le xs x
    · exact foldl_max_le_of_mem x hm

theorem listInsertAt_length (l : List α) (n : Nat) (a : α) :
    (listInsertAt l n a).length = l.length + 1 := by
  induction l generalizing n with
  | nil => cases n <;> rfl
  | cons x xs ih =>
    cases n with
    | zero => rfl
    | succ m => simp [listInsertAt, ih]

theorem listInsertAt_self_mem (l : List α) (n : Nat) (a : α) :
    a ∈ listInsertAt l n a := by
  induction l generalizing n with
  | nil => cases n <;> simp [listInsertAt]
  | cons x xs ih =>
    cases n with
    | zero => simp [listInsertAt]
    | succ m => simp [listInsertAt]; right; exact ih m

theorem listInsertAt_at_length (l : List α) (a : α) :
    listInsertAt l l.length a = l ++ [a] := by
  induction l with
  | nil => rfl
  | cons x xs ih => simp [listInsertAt, ih]

theorem listInsertAt_after (pre : List α) (y : α) (zs : List α) (a : α) :
    listInsertAt (pre ++ y :: zs) (pre.length + 1) a = pre ++ y :: a :: zs := by
  induction pre with
  | nil => simp [listInsertAt]
  | cons x xs ih => simp [listInsertAt, ih]

theorem swapWithPrev_append (pre : List α) (a b : α) (post : List α) :
    swapWithPrev (pre ++ a :: b :: post) (pre.length + 1) = pre ++ b :: a :: post := by
  unfold swapWithPrev
  have ht : (pre ++ a :: b :: post).take (pre.length + 1 - 1) = pre := by
    simp [List.take_left]
  have hd : (pre ++ a :: b :: post).drop (pre.length + 1 - 1) = a :: b :: post := by
    simp [List.drop_left]
  rw [ht, hd]

theorem findFieldWithIdx_none_iff (l : List FieldModel) (fid : Int) (i : Nat) :
    findFieldWithIdx l fid i = none ↔ ∀ f ∈ l, f.id ≠ some fid := by
  induction l generalizing i with
  | nil => simp [findFieldWithIdx]
  | cons f rest ih =>
    by_cases h : f.id = some fid
    · simp [findFieldWithIdx, h]
    · simp [findFieldWithIdx, h, ih]

theorem findFieldWithIdx_found (pre : List FieldModel) (src : FieldModel)
    (post : List FieldModel) (fid : Int) (i : Nat)
    (hpre : ∀ f ∈ pre, f.id ≠ some fid) (hsrc : src.id = some fid) :
    findFieldWithIdx (pre ++ src :: post) fid i = some (src, i + pre.length) := by
  induction pre generalizing i with
  | nil => simp [findFieldWithIdx, hsrc]
  | cons f rest ih =>
    have hf : f.id ≠ some fid := hpre f (List.mem_cons_self f rest)
    have hrest : ∀ g ∈ rest, g.id ≠ some fid := fun g hg => hpre g (List.mem_cons_of_mem f hg)
    show (if f.id = some fid then some (f, i)
          else findFieldWithIdx (rest ++ src :: post) fid (i + 1)) = some (src, i + (f :: rest).length)
    rw [if_neg hf, ih (i + 1) hrest]
    simp only [List.length_cons, Option.some.injEq, Prod.mk.injEq]
    constructor
    · trivial
    · omega

theorem remove_filter_length_iff (l : List FieldModel) (fid : Int) :
    (l.filter (fun f => f.id != some fid)).length = l.length ↔ ∀ f ∈ l, f.id ≠ some fid := by
  rw [← List.countP_eq_length_filter, List.countP_eq_length]
  simp [bne_iff_ne]

theorem filter_ne_id_eq_self {l : List FieldModel} {fid : Int}
    (h : ∀ f ∈ l, f.id ≠ some fid) : l.filter (fun f => f.id != some fid) = l :=
  List.filter_eq_self.mpr (fun f hf => by simpa [bne_iff_ne] using h f hf)

theorem findFieldWithIdx_some_mem {l : List FieldModel} {fid : Int} {i : Nat}
    {g : FieldModel} {j : Nat} (h : findFieldWithIdx l fid i = some (g, j)) :
    g ∈ l ∧ g.id = some fid := by
  induction l generalizing i with
  | nil => simp [findFieldWithIdx] at h
  | cons f rest ih =>
    by_cases hfid : f.id = some fid
    · rw [findFieldWithIdx, if_pos hfid] at h
      have hgf : g = f ∧ j = i := by
        simpa [Prod.ext_iff, eq_comm] using h
      rw [hgf.1]
      exact ⟨List.mem_cons_self f rest, hfid⟩
    · rw [findFieldWithIdx, if_neg hfid] at h
      obtain ⟨hm, hid⟩ := ih h
      exact ⟨List.mem_cons_of_mem f hm, hid⟩

/-! ## Claims -/

/-- C2: `removeField(form, id)` removes exactly the unique field whose
identifier equals `id`, leaving every other field unchanged and in its
original relative order; it fails with NotFound if and only if no field
has identifier `id`, and on that failure the field sequence is
unchanged. -/
theorem removeField_spec (form : FormModel) (fid : Int) :
    ((remove_field_from_form form fid).2 = some OpError.notFound ↔ ∀ f ∈ form.fields, f.id ≠ some fid)
    ∧ ((remove_field_from_form form fid).2 = some OpError.notFound →
        remove_field_from_form form fid = (form, some OpError.notFound))
    ∧ (∀ pre src post, form.fields = pre ++ src :: post → src.id = some fid →
        (∀ f ∈ pre, f.id ≠ some fid) → (∀ f ∈ post, f.id ≠ some fid) →
        remove_field_from_form form fid = ({ form with fields := pre ++ post }, none)) := by
  refine ⟨?_, ?_, ?_⟩
  · unfold remove_field_from_form
    by_cases h : (form.fields.filter (fun f => f.id != some fid)).length = form.fields.length
    · rw [if_pos h]
      exact iff_of_true rfl ((remove_filter_length_iff form.fields fid).mp h)
    · rw [if_neg h]
      exact iff_of_false (by simp)
        (fun hall => h ((remove_filter_length_iff form.fields fid).mpr hall))
  · intro h2
    unfold remove_field_from_form at *
    by_cases h : (form.fields.filter (fun f => f.id != some fid)).length = form.fields.length
    · have hfe := filter_ne_id_eq_self ((remove_filter_length_iff form.fields fid).mp h)
      simp [h, hfe]
    · simp [h] at h2
  · intro pre src post hsplit hsrc hpre hpost
    have hpsrc : (src.id != some fid) = false := by rw [hsrc]; simp
    have hfilter : form.fields.filter (fun f => f.id != some fid) = pre ++ post := by
      rw [hsplit, List.filter_append, List.filter_cons, hpsrc]
      simp only [Bool.false_eq_true, if_false]
      rw [filter_ne_id_eq_self hpre, filter_ne_id_eq_self hpost]
    have hcond : ¬((pre ++ post).length = form.fields.length) := by
      rw [hsplit]
      simp only [List.length_append, List.length_cons]
      omega
    simp only [remove_field_from_form]
    rw [hfilter, if_neg hcond]

theorem removeField_spec_witness :
    remove_field_from_form form123 2 =
      ({ form123 with fields := [mkField 1 .text "A"] ++ [mkField 3 .phone "C"] }, none) :=
  (removeField_spec form123 2).2.2 [mkField 1 .text "A"] (mkField 2 .email "B")
    [mkField 3 .phone "C"] rfl rfl (by decide) (by decide)

/-- C3: `addField(form, type, position)` assigns the new field the
identifier `1 + max existing identifier`, builds it via the Field
Factory, and inserts it at `position`, clamping to the end when the
position is omitted or out of range; `addField(form, TEXT)` on an empty
form yields one field with identifier 1, label "Untitled", and
placeholder "Enter text here". -/
theorem addField_spec :
    (∀ (form : FormModel) (ft : FieldType) (pos : Option Nat),
      (add_field_to_form form ft pos).fields =
        listInsertAt form.fields
          (match pos with
            | none => form.fields.length
            | some p => min p form.fields.length)
          (create_field ft (some (maxFieldId form.fields + 1))))
    ∧ ((add_field_to_form emptyFieldsForm .text none).fields.map
        (fun f => (f.id, f.label, f.placeholder)))
      = [(some 1, "Untitled", some "Enter text here")] := by
  constructor
  · intro form ft pos
    cases pos with
    | none => simp [add_field_to_form, listInsertAt_at_length]
    | some p =>
      by_cases h : form.fields.length ≤ p
      · have hm : min p form.fields.length = form.fields.length := min_eq_right h
        simp [add_field_to_form, h, hm, listInsertAt_at_length]
      · have hm : min p form.fields.length = p := min_eq_left (le_of_lt (Nat.lt_of_not_le h))
        simp [add_field_to_form, h, hm]
  · decide

/-- C7: whenever `removeField`, `duplicateField`, `moveFieldUp` or
`moveFieldDown` fails, the form it was applied to is observably
unchanged (and `addField` never fails). -/
theorem mutation_atomicity (form : FormModel) (fid : Int) :
    ((remove_field_from_form form fid).2 ≠ none → (remove_field_from_form form fid).1 = form)
    ∧ ((duplicate_field_in_form form fid).2 ≠ none → (duplicate_field_in_form form fid).1 = form)
    ∧ ((move_field_up form fid).2 ≠ none → (move_field_up form fid).1 = form)
    ∧ ((move_field_down form fid).2 ≠ none → (move_field_down form fid).1 = form) := by
  refine ⟨?_, ?_, ?_, ?_⟩
  · intro h
    unfold remove_field_from_form at *
    by_cases hc : (form.fields.filter (fun f => f.id != some fid)).length = form.fields.length
    · have hfe := filter_ne_id_eq_self ((remove_filter_length_iff form.fields fid).mp hc)
      simp [hc, hfe]
    · simp [hc] at h
  · intro h
    unfold duplicate_field_in_form at *
    cases hf : findFieldWithIdx form.fields fid 0 with
    | none => simp [hf]
    | some v =>
      obtain ⟨g, i⟩ := v
      rw [hf] at h
      simp at h
  · intro h
    unfold move_field_up at *
    cases hf : findFieldWithIdx form.fields fid 0 with
    | none => simp [hf]
    | some v =>
      obtain ⟨g, i⟩ := v
      rw [hf] at h
      by_cases hz : i = 0
      · simp [hz]
      · simp [hz] at h
  · intro h
    unfold move_field_down at *
    cases hf : findFieldWithIdx form.fields fid 0 with
    | none => simp [hf]
    | some v =>
      obtain ⟨g, i⟩ := v
      rw [hf] at h
      by_cases hz : i < form.fields.length - 1
      · simp [hz] at h
      · simp [hz]

theorem mutation_atomicity_witness :
    (remove_field_from_form form123 99).1 = form123
    ∧ (move_field_up form123 99).1 = form123 :=
  ⟨(mutation_atomicity form123 99).1 (by decide),
   (mutation_atomicity form123 99).2.2.1 (by decide)⟩

/-- C4: `duplicateField(form, id)` locates the field with identifier
`id` (NotFound, form unchanged, when absent), and inserts immediately
after it a clone equal to the source in every attribute except that its
identifier is `1 + max existing identifier` and its label has " (Copy)"
appended; all other fields keep their relative order and the length
grows by exactly one. -/
theorem duplicateField_spec (form : FormModel) (fid : Int) :
    ((duplicate_field_in_form form fid).2 = some OpError.notFound ↔ ∀ f ∈ form.fields, f.id ≠ some fid)
    ∧ ((duplicate_field_in_form form fid).2 = some OpError.notFound →
        (duplicate_field_in_form form fid).1 = form)
    ∧ (∀ pre src post, form.fields = pre ++ src :: post → src.id = some fid →
        (∀ f ∈ pre, f.id ≠ some fid) →
        duplicate_field_in_form form fid =
          ({ form with fields := pre ++ src ::
              { src with id := some (maxFieldId form.fields + 1),
                         label := src.label ++ " (Copy)" } :: post }, none)
          ∧ (duplicate_field_in_form form fid).1.fields.length = form.fields.length + 1) := by
  refine ⟨?_, ?_, ?_⟩
  · unfold duplicate_field_in_form
    cases hf : findFieldWithIdx form.fields fid 0 with
    | none => exact iff_of_true rfl ((findFieldWithIdx_none_iff _ _ _).mp hf)
    | some v =>
      obtain ⟨g, i⟩ := v
      obtain ⟨hm, hid⟩ := findFieldWithIdx_some_mem hf
      exact iff_of_false (by simp) (fun hall => hall g hm hid)
  · intro h
    unfold duplicate_field_in_form at *
    cases hf : findFieldWithIdx form.fields fid 0 with
    | none => simp [hf]
    | some v =>
      obtain ⟨g, i⟩ := v
      rw [hf] at h
      simp at h
  · intro pre src post hsplit hsrc hpre
    have hfind : findFieldWithIdx form.fields fid 0 = some (src, pre.length) := by
      rw [hsplit]
      simpa using findFieldWithIdx_found pre src post fid 0 hpre hsrc
    have heq : duplicate_field_in_form form fid =
        ({ form with fields := pre ++ src ::
            { src with id := some (maxFieldId form.fields + 1),
                       label := src.label ++ " (Copy)" } :: post }, none) := by
      simp only [duplicate_field_in_form, hfind]
      rw [hsplit, listInsertAt_after]
    refine ⟨heq, ?_⟩
    rw [heq, hsplit]
    simp [List.length_append]
    omega

theorem duplicateField_spec_witness :
    duplicate_field_in_form form123 2 =
      ({ form123 with fields := [mkField 1 .text "A"] ++ mkField 2 .email "B" ::
          { mkField 2 .email "B" with id := some (maxFieldId form123.fields + 1),
                                      label := (mkField 2 .email "B").label ++ " (Copy)" }
          :: [mkField 3 .phone "C"] }, none) :=
  ((duplicateField_spec form123 2).2.2 [mkField 1 .text "A"] (mkField 2 .email "B")
    [mkField 3 .phone "C"] rfl rfl (by decide)).1

/-- C5: `moveFieldUp` swaps the field having identifier `id` with its
immediate predecessor and `moveFieldDown` with its immediate successor,
leaving all other fields in place; they fail with InvalidState at the
top/bottom boundary and with NotFound when no field has the identifier;
on [id=1, id=2, id=3], `moveFieldUp(form, 2)` yields order [2,1,3] and
`moveFieldDown(form, 2)` applied next restores [1,2,3]. -/
theorem moveField_spec (form : FormModel) (fid : Int) :
    ((move_field_up form fid).2 = some OpError.notFound ↔ ∀ f ∈ form.fields, f.id ≠ some fid)
    ∧ ((move_field_down form fid).2 = some OpError.notFound ↔ ∀ f ∈ form.fields, f.id ≠ some fid)
    ∧ (∀ src rest, form.fields = src :: rest → src.id = some fid →
        move_field_up form fid = (form, some OpError.invalidState))
    ∧ (∀ pre src, form.fields = pre ++ [src] → src.id = some fid →
        (∀ f ∈ pre, f.id ≠ some fid) →
        move_field_down form fid = (form, some OpError.invalidState))
    ∧ (∀ pre a src post, form.fields = pre ++ a :: src :: post →
        src.id = some fid → (∀ f ∈ pre, f.id ≠ some fid) → a.id ≠ some fid →
        move_field_up form fid = ({ form with fields := pre ++ src :: a :: post }, none))
    ∧ (∀ pre src b post, form.fields = pre ++ src :: b :: post →
        src.id = some fid → (∀ f ∈ pre, f.id ≠ some fid) →
        move_field_down form fid = ({ form with fields := pre ++ b :: src :: post }, none))
    ∧ ((move_field_up form123 2).1.fields
          = [mkField 2 .email "B", mkField 1 .text "A", mkField 3 .phone "C"]
        ∧ (move_field_down (move_field_up form123 2).1 2).1.fields = form123.fields) := by
  refine ⟨?_, ?_, ?_, ?_, ?_, ?_, by decide⟩
  · unfold move_field_up
    cases hf : findFieldWithIdx form.fields fid 0 with
    | none => exact iff_of_true rfl ((findFieldWithIdx_none_iff _ _ _).mp hf)
    | some v =>
      obtain ⟨g, i⟩ := v
      obtain ⟨hm, hid⟩ := findFieldWithIdx_some_mem hf
      refine iff_of_false ?_ (fun hall => hall g hm hid)
      by_cases hz : i = 0 <;> simp [hz]
  · unfold move_field_down
    cases hf : findFieldWithIdx form.fields fid 0 with
    | none => exact iff_of_true rfl ((findFieldWithIdx_none_iff _ _ _).mp hf)
    | some v =>
      obtain ⟨g, i⟩ := v
      obtain ⟨hm, hid⟩ := findFieldWithIdx_some_mem hf
      refine iff_of_false ?_ (fun hall => hall g hm hid)
      by_cases hz : i < form.fields.length - 1 <;> simp [hz]
  · intro src rest hsplit hsrc
    have hfind : findFieldWithIdx form.fields fid 0 = some (src, 0) := by
      rw [hsplit, findFieldWithIdx, if_pos hsrc]
    simp [move_field_up, hfind]
  · intro pre src hsplit hsrc hpre
    have hfind : findFieldWithIdx form.fields fid 0 = some (src, pre.length) := by
      rw [hsplit]
      simpa using findFieldWithIdx_found pre src [] fid 0 hpre hsrc
    have hlen : ¬(pre.length < form.fields.length - 1) := by
      rw [hsplit]
      simp [List.length_append]
    simp [move_field_down, hfind, hlen]
  · intro pre a src post hsplit hsrc hpre ha
    have hfind : findFieldWithIdx form.fields fid 0 = some (src, pre.length + 1) := by
      have hpre' : ∀ f ∈ pre ++ [a], f.id ≠ some fid := by
        intro f hf
        rcases List.mem_append.mp hf with hl | hr
        · exact hpre f hl
        · rw [List.mem_singleton.mp hr]; exact ha
      have := findFieldWithIdx_found (pre ++ [a]) src post fid 0 hpre' hsrc
      rw [hsplit]
      simpa [List.append_assoc] using this
    have hnz : ¬(pre.length + 1 = 0) := by omega
    simp only [move_field_up, hfind]
    rw [hsplit]
    simp only [if_neg hnz, swapWithPrev_append]
  · intro pre src b post hsplit hsrc hpre
    have hfind : findFieldWithIdx form.fields fid 0 = some (src, pre.length) := by
      rw [hsplit]
      simpa using findFieldWithIdx_found pre src (b :: post) fid 0 hpre hsrc
    simp only [move_field_down, hfind]
    rw [hsplit]
    have hlt : pre.length < (pre ++ src :: b :: post).length - 1 := by
      simp only [List.length_append, List.length_cons]
      omega
    rw [if_pos hlt, swapWithPrev_append]

theorem moveField_spec_witness :
    move_field_up form123 2 =
      ({ form123 with fields := [] ++ mkField 2 .email "B" :: mkField 1 .text "A"
          :: [mkField 3 .phone "C"] }, none) :=
  (moveField_spec form123 2).2.2.2.2.1 [] (mkField 1 .text "A") (mkField 2 .email "B")
    [mkField 3 .phone "C"] rfl rfl (by decide) (by decide)

/-- C1 (counterexample): the identifier counter is recomputed from the
fields currently present, so an identifier freed by removing the
max-id field is reassigned by the next `addField`: starting from an
empty form, add, add, remove id 2, add assigns id 2 again, and the
maximum identifier ever seen decreases after the removal. -/
theorem id_reuse_counterexample :
    (((add_field_to_form (add_field_to_form emptyFieldsForm .text none) .text none).fields.map
        (fun f => f.id)) = [some 1, some 2])
    ∧ (remove_field_from_form
        (add_field_to_form (add_field_to_form emptyFieldsForm .text none) .text none) 2).2 = none
    ∧ (((remove_field_from_form
          (add_field_to_form (add_field_to_form emptyFieldsForm .text none) .text none) 2).1.fields.map
        (fun f => f.id)) = [some 1])
    ∧ (((add_field_to_form (remove_field_from_form
          (add_field_to_form (add_field_to_form emptyFieldsForm .text none) .text none) 2).1
          .text none).fields.map (fun f => f.id)) = [some 1, some 2]) := by
  decide

/-- C1 (amended): `addField` assigns the identifier
`1 + max(existing ids, default 0)`, which is strictly greater than — in
particular distinct from — the identifier of every field currently on
the form, so identifiers of the fields present are never duplicated by
an add; identifiers freed by a removal, however, may be reassigned. -/
theorem addField_fresh_id (form : FormModel) (ft : FieldType) (pos : Option Nat) :
    (add_field_to_form form ft pos).fields.length = form.fields.length + 1
    ∧ create_field ft (some (maxFieldId form.fields + 1)) ∈ (add_field_to_form form ft pos).fields
    ∧ ∀ f ∈ form.fields, f.id ≠ some (maxFieldId form.fields + 1) := by
  refine ⟨?_, ?_, ?_⟩
  · cases pos with
    | none => simp [add_field_to_form]
    | some p =>
      by_cases h : form.fields.length ≤ p <;>
        simp [add_field_to_form, h, listInsertAt_length]
  · cases pos with
    | none => simp [add_field_to_form]
    | some p =>
      by_cases h : form.fields.length ≤ p <;>
        simp [add_field_to_form, h, listInsertAt_self_mem]
  · intro f hf heq
    have hx := le_maxFieldId hf
    rw [heq] at hx
    simp at hx

theorem addField_fresh_id_witness :
    (add_field_to_form form123 .text none).fields.length = form123.fields.length + 1
    ∧ (mkField 1 .text "A").id ≠ some (maxFieldId form123.fields + 1) :=
  ⟨(addField_fresh_id form123 .text none).1,
   (addField_fresh_id form123 .text none).2.2 (mkField 1 .text "A") (by decide)⟩

theorem choiceErrorsFrom_shape (pfx : String) (cs : List Choice) (j : Nat) :
    ∀ e ∈ choiceErrorsFrom pfx j cs, ∃ m, e = pfx ++ m := by
  induction cs generalizing j with
  | nil => intro e he; cases he
  | cons c rest ih =>
    intro e he
    unfold choiceErrorsFrom at he
    rcases List.mem_append.mp he with h1 | h2
    · by_cases hb : pyStrip c.text = ""
      · rw [if_pos hb] at h1
        rw [List.mem_singleton.mp h1]
        simp only [String.append_assoc]
        exact ⟨_, rfl⟩
      · rw [if_neg hb] at h1; cases h1
    · exact ih (j + 1) e h2

theorem fieldErrors_shape (f : FieldModel) (i : Nat) (seen : List Int) :
    ∀ e ∈ fieldErrors f i seen, ∃ m, e = "Field " ++ m := by
  intro e he
  unfold fieldErrors at he
  simp only [List.mem_append] at he
  rcases he with ((((h | h) | h) | h) | h) | h <;>
  · repeat' split at h
    all_goals
      first
        | (rw [List.mem_singleton.mp h]
           simp only [fieldPfx, String.append_assoc]
           exact ⟨_, rfl⟩)
        | cases h
        | (obtain ⟨m, hm⟩ := choiceErrorsFrom_shape (fieldPfx i) _ 0 e h
           rw [hm]
           simp only [fieldPfx, String.append_assoc]
           exact ⟨_, rfl⟩)

theorem validate_fields_shape (fs : List FieldModel) (i : Nat) (seen : List Int) :
    ∀ e ∈ validate_fields fs i seen, ∃ m, e = "Field " ++ m := by
  induction fs generalizing i seen with
  | nil => intro e he; cases he
  | cons f rest ih =>
    intro e he
    unfold validate_fields at he
    rcases List.mem_append.mp he with h1 | h2
    · exact fieldErrors_shape f i seen e h1
    · exact ih _ _ e h2

theorem field_prefixed_ne_title (m : String) :
    ¬("Field " ++ m = "Form title is required") := by
  intro h
  have h2 := congrArg String.data h
  simp [String.data_append] at h2

theorem field_prefixed_ne_title_len (m : String) :
    ¬("Field " ++ m = "Form title must be 255 characters or less") := by
  intro h
  have h2 := congrArg String.data h
  simp [String.data_append] at h2

/-- C8: a form with a blank title and no fields validates to exactly one
error, the title error; in general the validator reports a title error
iff the title is blank after trimming, and a title-length error iff the
trimmed title exceeds 255 characters. -/
theorem validate_blank_title_spec :
    (∀ form : FormModel, pyStrip form.title = "" → form.fields = [] →
        validate_form form = ["Form title is required"])
    ∧ (∀ form : FormModel,
        ("Form title is required" ∈ validate_form form ↔ pyStrip form.title = ""))
    ∧ (∀ form : FormModel,
        ("Form title must be 255 characters or less" ∈ validate_form form
          ↔ 255 < (pyStrip form.title).length)) := by
  refine ⟨?_, ?_, ?_⟩
  · intro form h hf
    simp [validate_form, h, hf, validate_fields]
  · intro form
    by_cases hb : pyStrip form.title = ""
    · refine iff_of_true ?_ hb
      unfold validate_form
      rw [if_pos hb]
      exact List.mem_append_left _ (List.mem_append_left _ (List.mem_singleton_self _))
    · refine iff_of_false ?_ hb
      intro hmem
      unfold validate_form at hmem
      rw [if_neg hb] at hmem
      simp only [List.nil_append] at hmem
      rcases List.mem_append.mp hmem with h1 | h2
      · by_cases h255 : 255 < (pyStrip form.title).length
        · rw [if_pos h255] at h1
          exact absurd (List.mem_singleton.mp h1) (by decide)
        · rw [if_neg h255] at h1; cases h1
      · obtain ⟨m, hm⟩ := validate_fields_shape form.fields 0 [] _ h2
        exact field_prefixed_ne_title m hm.symm
  · intro form
    by_cases h255 : 255 < (pyStrip form.title).length
    · refine iff_of_true ?_ h255
      unfold validate_form
      rw [if_pos h255]
      exact List.mem_append_left _
        (List.mem_append_right _ (List.mem_singleton_self _))
    · refine iff_of_false ?_ h255
      intro hmem
      unfold validate_form at hmem
      rw [if_neg h255] at hmem
      rcases List.mem_append.mp hmem with h1 | h2
      · rcases List.mem_append.mp h1 with h0 | h0'
        · by_cases hb : pyStrip form.title = ""
          · rw [if_pos hb] at h0
            exact absurd (List.mem_singleton.mp h0) (by decide)
          · rw [if_neg hb] at h0; cases h0
        · cases h0'
      · obtain ⟨m, hm⟩ := validate_fields_shape form.fields 0 [] _ h2
        exact field_prefixed_ne_title_len m hm.symm

theorem validate_blank_title_spec_witness :
    validate_form blankTitleForm = ["Form title is required"] :=
  validate_blank_title_spec.1 blankTitleForm (by decide) rfl

theorem choiceErrorsFrom_mem (pfx : String) (cs : List Choice) (base j : Nat) (c : Choice)
    (hj : cs[j]? = some c) (hblank : pyStrip c.text = "") :
    (pfx ++ ", Choice " ++ toString (base + j + 1) ++ ": Choice text is required")
      ∈ choiceErrorsFrom pfx base cs := by
  induction cs generalizing base j with
  | nil => simp at hj
  | cons c0 rest ih =>
    cases j with
    | zero =>
      have hc : c0 = c := by simpa using hj
      unfold choiceErrorsFrom
      rw [hc, if_pos hblank]
      apply List.mem_append_left
      simp
    | succ j' =>
      have hj' : rest[j']? = some c := by simpa using hj
      unfold choiceErrorsFrom
      apply List.mem_append_right
      have harith : base + (j' + 1) + 1 = base + 1 + j' + 1 := by omega
      rw [harith]
      exact ih (base + 1) j' hj'

theorem fieldErrors_choice_mem (f : FieldModel) (i : Nat) (seen : List Int)
    (cs : List Choice) (j : Nat) (c : Choice)
    (htype : f.type ∈ choiceKinds) (hcs : f.choices = some cs)
    (hj : cs[j]? = some c) (hblank : pyStrip c.text = "") :
    (fieldPfx i ++ ", Choice " ++ toString (j + 1) ++ ": Choice text is required")
      ∈ fieldErrors f i seen := by
  have hne : cs.isEmpty = false := by
    cases cs
    · simp at hj
    · rfl
  unfold fieldErrors
  apply List.mem_append_left
  apply List.mem_append_left
  apply List.mem_append_right
  rw [if_pos htype, hcs]
  simp only [hne, Bool.false_eq_true, if_false]
  simpa using choiceErrorsFrom_mem (fieldPfx i) cs 0 j c hj hblank

theorem validate_fields_mem_of_field (fs : List FieldModel) (base : Nat) (seen : List Int)
    (i : Nat) (f : FieldModel) (e : String) (hi : fs[i]? = some f)
    (he : ∀ s : List Int, e ∈ fieldErrors f (base + i) s) :
    e ∈ validate_fields fs base seen := by
  induction fs generalizing base seen i with
  | nil => simp at hi
  | cons f0 rest ih =>
    cases i with
    | zero =>
      have hf0 : f0 = f := by simpa using hi
      unfold validate_fields
      apply List.mem_append_left
      rw [hf0]
      simpa using he seen
    | succ i' =>
      have hi' : rest[i']? = some f := by simpa using hi
      unfold validate_fields
      apply List.mem_append_right
      refine ih (base + 1) _ i' hi' (fun s => ?_)
      have harith : base + 1 + i' = base + (i' + 1) := by omega
      rw [harith]
      exact he s

/-- C9: a valid-titled form whose only field is a choice-kind field with
a non-blank short label and an empty choices list validates to exactly
one error, "Field 1: Choice fields must have at least one choice"; and
in general a blank choice text in a choice-kind field's non-empty
choices list produces an error naming "Field N, Choice M" with 1-based
indices. -/
theorem validate_choice_spec :
    (∀ (form : FormModel) (f : FieldModel),
        pyStrip form.title ≠ "" → ¬(255 < (pyStrip form.title).length) →
        form.fields = [f] → f.type ∈ choiceKinds →
        pyStrip f.label ≠ "" → ¬(255 < f.label.length) →
        (f.choices = none ∨ f.choices = some []) →
        validate_form form = ["Field 1: Choice fields must have at least one choice"])
    ∧ (∀ (form : FormModel) (i j : Nat) (f : FieldModel) (cs : List Choice) (c : Choice),
        form.fields[i]? = some f → f.type ∈ choiceKinds →
        f.choices = some cs → cs[j]? = some c → pyStrip c.text = "" →
        ("Field " ++ toString (i + 1) ++ ", Choice " ++ toString (j + 1)
          ++ ": Choice text is required") ∈ validate_form form) := by
  constructor
  · intro form f hb h255 hf htype hlabel hlablen hch
    have hfile : f.type ≠ FieldType.fileupload := by
      intro hcontra
      rw [hcontra] at htype
      exact absurd htype (by decide)
    have hhtml : f.type ≠ FieldType.html := by
      intro hcontra
      rw [hcontra] at htype
      exact absurd htype (by decide)
    unfold validate_form
    rw [if_neg hb, if_neg h255, hf]
    unfold validate_fields validate_fields
    unfold fieldErrors
    rcases hid : f.id with _ | fid <;>
      rcases hch with hch' | hch' <;>
        simp [hid, hlabel, hlablen, htype, hfile, hhtml, hch', fieldPfx] <;>
          decide
  · intro form i j f cs c hi htype hcs hj hblank
    unfold validate_form
    apply List.mem_append_right
    refine validate_fields_mem_of_field form.fields 0 [] i f _ hi (fun s => ?_)
    simpa [fieldPfx] using fieldErrors_choice_mem f (0 + i) s cs j c htype hcs hj hblank

theorem validate_choice_spec_witness :
    validate_form selectNoChoicesForm
      = ["Field 1: Choice fields must have at least one choice"] :=
  validate_choice_spec.1 selectNoChoicesForm
    { id := some 1, type := .select, label := "Dropdown", choices := some [] }
    (by decide) (by decide) rfl (by decide) (by decide) (by decide) (Or.inr rfl)

theorem convert_field_isSome (f : FieldModel) :
    (convert_field_to_gravity_forms f).isSome := by
  cases hty : f.type <;>
    simp [convert_field_to_gravity_forms, hty, FieldType.value, type_mapping, assocFind]

/-- C10: the publish-boundary conversion drops no field: the fixed
lookup table maps every member of the closed field-kind set, so the
unsupported-kind branch is unreachable and the converted document's
field list has exactly one entry per field of the form, in the same
order. -/
theorem gf_conversion_total :
    (∀ f : FieldModel, (convert_field_to_gravity_forms f).isSome)
    ∧ (∀ fs : List FieldModel,
        convert_fields_to_gf fs
          = fs.map (fun f => (convert_field_to_gravity_forms f).getD JsonKVs.nil))
    ∧ (∀ form : FormModel,
        (convert_fields_to_gf form.fields).length = form.fields.length
        ∧ jlookup "fields" (convert_to_gravity_forms_format form)
            = some (Json.arr (JsonList.ofList
                ((convert_fields_to_gf form.fields).map Json.obj)))) := by
  have hmap : ∀ fs : List FieldModel,
      convert_fields_to_gf fs
        = fs.map (fun f => (convert_field_to_gravity_forms f).getD JsonKVs.nil) := by
    intro fs
    induction fs with
    | nil => rfl
    | cons f rest ih =>
      cases h : convert_field_to_gravity_forms f with
      | none =>
        have := convert_field_isSome f
        rw [h] at this
        cases this
      | some gf =>
        unfold convert_fields_to_gf
        rw [h, ih]
        simp [h]
  refine ⟨convert_field_isSome, hmap, ?_⟩
  intro form
  constructor
  · rw [hmap]
    simp
  · simp [convert_to_gravity_forms_format, JsonKVs.ofList, jlookup]

/-! ## Round-trip lemmas -/

@[simp] theorem jlookup_cons (k k' : String) (v : Json) (tl : JsonKVs) :
    jlookup k (JsonKVs.cons k' v tl) = if k = k' then some v else jlookup k tl := rfl

@[simp] theorem decodeStr_rt (s : String) : decodeStr (Json.str s) = some s := rfl

@[simp] theorem decodeOptStr_rt (o : Option String) : decodeOptStr (jStrOpt o) = some o := by
  cases o <;> rfl

@[simp] theorem decodeBool_rt (b : Bool) : decodeBool (Json.bool b) = some b := rfl

@[simp] theorem decodeOptInt_rt (o : Option Int) : decodeOptInt (jIntOpt o) = some o := by
  cases o <;> rfl

@[simp] theorem decodeFieldType_rt (ft : FieldType) :
    decodeFieldTypeJson (Json.str ft.value) = some ft := by
  cases ft <;> rfl

@[simp] theorem decodeOptRuleValue_rt (o : Option RuleValue) :
    decodeOptRuleValue (jRuleValueOpt o) = some o := by
  rcases o with _ | v
  · rfl
  · rcases v <;> rfl

@[simp] theorem decodeDict_rt (kvs : JsonKVs) : decodeDict (Json.obj kvs) = some kvs := rfl

theorem decodeListWith_rt {α : Type} (dec : Json → Option α) (enc : α → Json)
    (h : ∀ x, dec (enc x) = some x) (xs : List α) :
    decodeListWith dec (JsonList.ofList (xs.map enc)) = some xs := by
  induction xs with
  | nil => rfl
  | cons x rest ih => simp [JsonList.ofList, decodeListWith, h, ih]

theorem decodeArrWith_rt {α : Type} (dec : Json → Option α) (enc : α → Json)
    (h : ∀ x, dec (enc x) = some x) (xs : List α) :
    decodeArrWith dec (Json.arr (JsonList.ofList (xs.map enc))) = some xs := by
  simp [decodeArrWith, decodeListWith_rt dec enc h xs]

theorem decodeOptArrWith_rt {α : Type} (dec : Json → Option α) (enc : α → Json)
    (h : ∀ x, dec (enc x) = some x) (o : Option (List α)) :
    decodeOptArrWith dec (jOptArr enc o) = some o := by
  cases o with
  | none => rfl
  | some xs => simp [jOptArr, decodeOptArrWith, decodeListWith_rt dec enc h xs]

@[simp] theorem Choice_rt (c : Choice) :
    Choice.model_validate (Json.obj c.model_dump) = some c := by
  simp [Choice.model_dump, Choice.model_validate, getReq, getOr, JsonKVs.ofList]

@[simp] theorem InputItem_rt (inp : InputItem) :
    InputItem.model_validate (Json.obj inp.model_dump) = some inp := by
  simp [InputItem.model_dump, InputItem.model_validate, getReq, getOr, JsonKVs.ofList]

@[simp] theorem ValidationRule_rt (r : ValidationRule) :
    ValidationRule.model_validate (Json.obj r.model_dump) = some r := by
  simp [ValidationRule.model_dump, ValidationRule.model_validate, getReq, getOr, JsonKVs.ofList]

@[simp] theorem decode_rules_rt (rules : List JsonKVs) :
    decodeArrWith decodeDict (Json.arr (JsonList.ofList (rules.map Json.obj))) = some rules :=
  decodeArrWith_rt decodeDict Json.obj (fun _ => rfl) rules

@[simp] theorem ConditionalLogic_rt (cl : ConditionalLogic) :
    ConditionalLogic.model_validate (Json.obj cl.model_dump) = some cl := by
  simp [ConditionalLogic.model_dump, ConditionalLogic.model_validate, getReq, getOr,
        JsonKVs.ofList]

@[simp] theorem decodeOptCondLogic_rt (o : Option ConditionalLogic) :
    decodeOptCondLogic (match o with
      | none => Json.null
      | some cl => Json.obj cl.model_dump) = some o := by
  cases o with
  | none => rfl
  | some cl => simp [decodeOptCondLogic]

@[simp] theorem decode_inputs_rt (o : Option (List InputItem)) :
    decodeOptArrWith InputItem.model_validate
      (jOptArr (fun i => Json.obj i.model_dump) o) = some o :=
  decodeOptArrWith_rt _ _ (fun x => InputItem_rt x) o

@[simp] theorem decode_choices_rt (o : Option (List Choice)) :
    decodeOptArrWith Choice.model_validate
      (jOptArr (fun c => Json.obj c.model_dump) o) = some o :=
  decodeOptArrWith_rt _ _ (fun x => Choice_rt x) o

@[simp] theorem decode_validation_rt (o : Option (List ValidationRule)) :
    decodeOptArrWith ValidationRule.model_validate
      (jOptArr (fun r => Json.obj r.model_dump) o) = some o :=
  decodeOptArrWith_rt _ _ (fun x => ValidationRule_rt x) o

theorem FieldModel_decodeA_rt (f : FieldModel) :
    FieldModel.decodeA f.model_dump =
      some { id := f.id, type := f.type, label := f.label, adminLabel := f.adminLabel,
             description := f.description, isRequired := f.isRequired,
             placeholder := f.placeholder, defaultValue := f.defaultValue } := by
  simp [FieldModel.model_dump, FieldModel.decodeA, getReq, getOr, JsonKVs.ofList]

theorem FieldModel_decodeB_rt (f r : FieldModel) :
    FieldModel.decodeB f.model_dump r =
      some { r with inputs := f.inputs, choices := f.choices, cssClass := f.cssClass,
                    size := f.size, maxLength := f.maxLength, visibility := f.visibility,
                    allowsPrepopulate := f.allowsPrepopulate, inputName := f.inputName } := by
  simp [FieldModel.model_dump, FieldModel.decodeB, getReq, getOr, JsonKVs.ofList]

theorem FieldModel_decodeC_rt (f r : FieldModel) :
    FieldModel.decodeC f.model_dump r =
      some { r with content := f.content, displayOnly := f.displayOnly,
                    conditionalLogic := f.conditionalLogic, validation := f.validation,
                    maxFileSize := f.maxFileSize, allowedExtensions := f.allowedExtensions,
                    multipleFiles := f.multipleFiles } := by
  simp [FieldModel.model_dump, FieldModel.decodeC, getReq, getOr, JsonKVs.ofList]

@[simp] theorem FieldModel_rt (f : FieldModel) :
    FieldModel.model_validate (Json.obj f.model_dump) = some f := by
  simp [FieldModel.model_validate, FieldModel_decodeA_rt, FieldModel_decodeB_rt,
        FieldModel_decodeC_rt]

theorem NotificationSettings_decodeA_rt (n : NotificationSettings) :
    NotificationSettings.decodeA n.model_dump =
      some { id := n.id, name := n.name, event := n.event, to_addr := n.to_addr,
             subject := n.subject, message := n.message } := by
  simp [NotificationSettings.model_dump, NotificationSettings.decodeA, getReq, getOr,
        JsonKVs.ofList]

theorem NotificationSettings_decodeB_rt (n r : NotificationSettings) :
    NotificationSettings.decodeB n.model_dump r =
      some { r with from_name := n.from_name, from_email := n.from_email,
                    replyTo := n.replyTo, bcc := n.bcc, isActive := n.isActive } := by
  simp [NotificationSettings.model_dump, NotificationSettings.decodeB, getReq, getOr,
        JsonKVs.ofList]

@[simp] theorem NotificationSettings_rt (n : NotificationSettings) :
    NotificationSettings.model_validate (Json.obj n.model_dump) = some n := by
  simp [NotificationSettings.model_validate, NotificationSettings_decodeA_rt,
        NotificationSettings_decodeB_rt]

theorem ConfirmationSettings_decodeA_rt (c : ConfirmationSettings) :
    ConfirmationSettings.decodeA c.model_dump =
      some { id := c.id, name := c.name, type := c.type, message := c.message,
             url := c.url } := by
  simp [ConfirmationSettings.model_dump, ConfirmationSettings.decodeA, getReq, getOr,
        JsonKVs.ofList]

theorem ConfirmationSettings_decodeB_rt (c r : ConfirmationSettings) :
    ConfirmationSettings.decodeB c.model_dump r =
      some { r with pageId := c.pageId, queryString := c.queryString,
                    isActive := c.isActive, isDefault := c.isDefault } := by
  simp [ConfirmationSettings.model_dump, ConfirmationSettings.decodeB, getReq, getOr,
        JsonKVs.ofList]

@[simp] theorem ConfirmationSettings_rt (c : ConfirmationSettings) :
    ConfirmationSettings.model_validate (Json.obj c.model_dump) = some c := by
  simp [ConfirmationSettings.model_validate, ConfirmationSettings_decodeA_rt,
        ConfirmationSettings_decodeB_rt]

@[simp] theorem decode_fields_rt (fs : List FieldModel) :
    decodeArrWith FieldModel.model_validate
      (Json.arr (JsonList.ofList (fs.map (fun f => Json.obj f.model_dump)))) = some fs :=
  decodeArrWith_rt _ _ (fun x => FieldModel_rt x) fs

@[simp] theorem decode_notifications_rt (ns : List NotificationSettings) :
    decodeArrWith NotificationSettings.model_validate
      (Json.arr (JsonList.ofList (ns.map (fun n => Json.obj n.model_dump)))) = some ns :=
  decodeArrWith_rt _ _ (fun x => NotificationSettings_rt x) ns

@[simp] theorem decode_confirmations_rt (cs : List ConfirmationSettings) :
    decodeArrWith ConfirmationSettings.model_validate
      (Json.arr (JsonList.ofList (cs.map (fun c => Json.obj c.model_dump)))) = some cs :=
  decodeArrWith_rt _ _ (fun x => ConfirmationSettings_rt x) cs

theorem FormModel_decodeA_rt (form : FormModel) :
    FormModel.decodeA form.model_dump =
      some { id := form.id, title := form.title, description := form.description,
             version := form.version, fields := form.fields, button := form.button,
             labelPlacement := form.labelPlacement,
             descriptionPlacement := form.descriptionPlacement } := by
  simp [FormModel.model_dump, FormModel.decodeA, getReq, getOr, JsonKVs.ofList]

theorem FormModel_decodeB_rt (form r : FormModel) :
    FormModel.decodeB form.model_dump r =
      some { r with requiredIndicator := form.requiredIndicator, cssClass := form.cssClass,
                    enableHoneypot := form.enableHoneypot,
                    enableAnimation := form.enableAnimation, save := form.save,
                    limitEntries := form.limitEntries,
                    limitEntriesCount := form.limitEntriesCount,
                    limitEntriesMessage := form.limitEntriesMessage } := by
  simp [FormModel.model_dump, FormModel.decodeB, getReq, getOr, JsonKVs.ofList]

theorem FormModel_decodeC_rt (form r : FormModel) :
    FormModel.decodeC form.model_dump r =
      some { r with scheduleForm := form.scheduleForm, scheduleStart := form.scheduleStart,
                    scheduleEnd := form.scheduleEnd, scheduleMessage := form.scheduleMessage,
                    notifications := form.notifications,
                    confirmations := form.confirmations } := by
  simp [FormModel.model_dump, FormModel.decodeC, getReq, getOr, JsonKVs.ofList]

/-- C6: serialization round-trips losslessly — deserializing the
serialized tree representation of any Form whose notification and
confirmation lists are populated (the §3 invariant established by
`model_post_init` at construction) yields a Form equal to the original,
preserving field order and every attribute, with absent optionals
(`null`) kept distinct from explicit defaults. -/
theorem serialization_roundtrip (form : FormModel)
    (hn : form.notifications ≠ []) (hc : form.confirmations ≠ []) :
    FormModel.model_validate (Json.obj form.model_dump) = some form := by
  simp only [FormModel.model_validate, FormModel_decodeA_rt, FormModel_decodeB_rt,
             FormModel_decodeC_rt, Option.bind_some]
  unfold model_post_init
  simp [List.isEmpty_iff, hn, hc]

theorem serialization_roundtrip_witness :
    FormModel.model_validate (Json.obj (create_new_form "Contact").model_dump)
      = some (create_new_form "Contact") :=
  serialization_roundtrip (create_new_form "Contact") (by decide) (by decide)

end BFB
